import Mathlib

/-!
Verification of the cpplot layout serialisation (`source/layout.h`).

A shallow embedding of `cpplot::Axis`, `cpplot::Layout` and their two
`to_json` serialisers, together with the part of the `nlohmann::json`
document type that the serialisers drive: default construction, keyed
assignment `j[key] = value` and `j.update(other)`.

Conventions of the embedding

* `std::string` is `String`, `std::vector<Axis>` is `List Axis`
  (`push_back` appends at the end, the `for` loop visits index `0` first).
* A `json&` out-parameter becomes explicit state passing: the serialiser
  takes the document and returns the new document.
* Document operations that can throw return `Except JsonException`.
* A json object is a `std::map<std::string, json>`: its entries are kept as
  a list sorted by key, so equal documents are equal terms.
-/

namespace cpplot

/-! ## The document type -/

/-- The document type `nlohmann::json` of the third-party header that
`layout.h` includes. A document is `null` (what a default constructed
`nlohmann::json` holds, as in the declarations `nlohmann::json axis;` and
`nlohmann::json ax;`), a scalar, an array, or an object mapping string keys
to documents. Floating point numbers are never built by the layout code and
are left out. -/
inductive Json where
  | null
  | boolean (b : Bool)
  | number_integer (n : Int)
  | number_unsigned (n : Nat)
  | string (s : String)
  | array (items : List Json)
  | object (members : List (String × Json))

/-- Exceptions of the document operations, with the library's error ids. -/
inductive JsonException where
  | type_error (id : Nat)
  deriving DecidableEq, Repr

namespace Json

/-- Insert-or-overwrite of one entry in the sorted member list of an
object: what `std::map::operator[]` followed by an assignment does. -/
def insertMember (k : String) (v : Json) : List (String × Json) → List (String × Json)
  | [] => [(k, v)]
  | (k', v') :: rest =>
    if k = k' then (k', v) :: rest
    else if k < k' then (k, v) :: (k', v') :: rest
    else (k', v') :: insertMember k v rest

/-- Keyed assignment `j[key] = value` of the library. A `null`
document is first turned into an empty object; an object gets the entry
inserted or overwritten; every other kind of document raises
`type_error` 305. -/
def set (j : Json) (key : String) (value : Json) : Except JsonException Json :=
  match j with
  | null => .ok (object (insertMember key value []))
  | object members => .ok (object (insertMember key value members))
  | _ => .error (.type_error 305)

/-- Merge `j.update(other)` of the library. A `null` target is first
turned into an empty object; a target that is not an object, or an argument
that is not an object, raises `type_error` 312; otherwise every entry of
`other`, in key order, is inserted into or overwritten in the target. -/
def update (j : Json) (other : Json) : Except JsonException Json :=
  let target : Option (List (String × Json)) :=
    match j with
    | null => some []
    | object members => some members
    | _ => none
  match target with
  | none => .error (.type_error 312)
  | some members =>
    match other with
    | object entries =>
      .ok (object (entries.foldl (fun acc kv => insertMember kv.1 kv.2 acc) members))
    | _ => .error (.type_error 312)

/-- Member lookup in a sorted member list. -/
def findMember (k : String) : List (String × Json) → Option Json
  | [] => none
  | (k', v) :: rest => if k = k' then some v else findMember k rest

/-- Value stored under a top-level key (`find`); `none` when the document
is not an object or has no such key. -/
def find (j : Json) (key : String) : Option Json :=
  match j with
  | object members => findMember key members
  | _ => none

/-- Whether the document has a top-level key (`contains`): false for every
document that is not an object. -/
def contains (j : Json) (key : String) : Bool :=
  (j.find key).isSome

/-- Top-level keys of a document, in key order; none for a non-object. -/
def keys (j : Json) : List String :=
  match j with
  | object members => members.map Prod.fst
  | _ => []

end Json

/-! ## Axis -/

/-- The three axis directions (`enum AxisDirection { X, Y, Z}`). -/
inductive AxisDirection where
  | X
  | Y
  | Z
  deriving DecidableEq, Repr

/-- An axis holds its title and the json key chosen by the constructor. -/
structure Axis where
  title : String
  key : String
  deriving DecidableEq, Repr

/-- Constructor `Axis(dir, title = "")`: stores the title and picks the key
by a `switch` over the direction. -/
def Axis.new (dir : AxisDirection) (title : String := "") : Axis :=
  { title := title
    key := match dir with
      | .X => "xaxis"
      | .Y => "yaxis"
      | .Z => "zaxis" }

/-- Serialiser `to_json(json& j, const Axis& p)`: builds the local document
`axis` with `axis["title"] = p.title`, then assigns `j[p.key] = axis`. -/
def Axis.to_json (j : Json) (p : Axis) : Except JsonException Json := do
  let axis ← Json.set Json.null "title" (Json.string p.title)
  Json.set j p.key axis

/-! ## Layout -/

/-- A layout holds the ordered axes and the title. -/
structure Layout where
  axes : List Axis
  title : String
  deriving DecidableEq, Repr

/-- Constructor `Layout(title = "")`: no axes yet. -/
def Layout.new (title : String := "") : Layout :=
  { axes := [], title := title }

/-- Method `xLabel(label)`: builds an X axis and pushes it at the back. -/
def Layout.xLabel (p : Layout) (label : String) : Layout :=
  let dir := AxisDirection.X
  let ax := Axis.new dir label
  { p with axes := p.axes ++ [ax] }

/-- Method `yLabel(label)`: builds a Y axis and pushes it at the back. -/
def Layout.yLabel (p : Layout) (label : String) : Layout :=
  let dir := AxisDirection.Y
  let ax := Axis.new dir label
  { p with axes := p.axes ++ [ax] }

/-- Method `zLabel(label)`: builds a Z axis and pushes it at the back. -/
def Layout.zLabel (p : Layout) (label : String) : Layout :=
  let dir := AxisDirection.Z
  let ax := Axis.new dir label
  { p with axes := p.axes ++ [ax] }

/-- Body of the `for` loop of the layout serialiser, run over the axes
still to visit: each axis is serialised into a fresh document `ax`, which
is then merged into `j` with `update`. -/
def Layout.to_json.loop (j : Json) : List Axis → Except JsonException Json
  | [] => .ok j
  | a :: rest => do
    let ax ← Axis.to_json Json.null a
    let j' ← Json.update j ax
    Layout.to_json.loop j' rest

/-- Serialiser `to_json(json& j, const Layout& p)`: sets `j["title"]` when
the title is not empty, then merges every axis in index order. -/
def Layout.to_json (j : Json) (p : Layout) : Except JsonException Json := do
  let j ← if ¬ p.title.isEmpty then Json.set j "title" (Json.string p.title) else pure j
  Layout.to_json.loop j p.axes

/-! ## Vocabulary of the statements -/

/-- The add operation for direction `dir`: the label method of that
direction (`xLabel`, `yLabel` or `zLabel`). -/
def Layout.addAxis (p : Layout) (dir : AxisDirection) (label : String) : Layout :=
  match dir with
  | .X => p.xLabel label
  | .Y => p.yLabel label
  | .Z => p.zLabel label

/-- A layout as a program obtains it: constructed with `title`, then one
label call per entry of `calls`, in order. -/
def Layout.build (title : String) (calls : List (AxisDirection × String)) : Layout :=
  calls.foldl (fun p c => p.addAxis c.1 c.2) (Layout.new title)

/-- Title of the last call of direction `dir`, if there is one. -/
def lastTitle (dir : AxisDirection) (calls : List (AxisDirection × String)) : Option String :=
  ((calls.filter (fun c => c.1 = dir)).getLast?).map Prod.snd

/-- The documented key of a direction. -/
def keyOf : AxisDirection → String
  | .X => "xaxis"
  | .Y => "yaxis"
  | .Z => "zaxis"

/-- The document `{"title": t}` stored under an axis key. -/
def axisValue (t : String) : Json :=
  .object [("title", .string t)]

/-- Members of the layout document with the given optional entries, in key
order. -/
def docMembers (title x y z : Option String) : List (String × Json) :=
  (title.map (fun s => ("title", Json.string s))).toList
    ++ (x.map (fun s => ("xaxis", axisValue s))).toList
    ++ (y.map (fun s => ("yaxis", axisValue s))).toList
    ++ (z.map (fun s => ("zaxis", axisValue s))).toList

/-- The document holding the given members when it was only ever touched
by keyed insertion: still `null` when nothing was inserted. -/
def docOf : List (String × Json) → Json
  | [] => .null
  | m :: ms => .object (m :: ms)

/-- The title entry of a layout document: absent for an empty title. -/
def titleEntry (title : String) : Option String :=
  if title.isEmpty then none else some title

/-- The title-only document as the specification words it: on a fresh
document, the `"title"` field is set for a non-empty title and omitted for
an empty one. -/
def titleOnly (title : String) : Except JsonException Json :=
  if title = "" then .ok Json.null else Json.set Json.null "title" (Json.string title)

/-- The sub-document of an axis: the axis serialised into a fresh
document. -/
def subdoc (a : Axis) : Except JsonException Json :=
  Axis.to_json Json.null a

/-- One merge of the specification: the sub-document of `a` is merged, key
by key, into the document built so far. -/
def mergeAxis (acc : Except JsonException Json) (a : Axis) : Except JsonException Json := do
  let j ← acc
  let ax ← subdoc a
  Json.update j ax

/-- The layout serialisation as the specification words it: starting from
the title-only document, the sub-document of each axis is merged in, in
sequence order (a left fold). -/
def Layout.foldSerialise (p : Layout) : Except JsonException Json :=
  p.axes.foldl mergeAxis (titleOnly p.title)

/-! ## The serialisers in closed form -/

/-- An axis serialised into a fresh document is the one-entry object
holding `{"title": title}` under the axis key. -/
theorem Axis.to_json_null (a : Axis) :
    Axis.to_json Json.null a = .ok (.object [(a.key, axisValue a.title)]) := by
  simp [Axis.to_json, Json.set, Json.insertMember, axisValue, bind, Except.bind]

/-- One round of the loop: the axis entry is inserted into the target. -/
theorem update_axis_step (title x y z : Option String) (dir : AxisDirection) (t : String) :
    Json.update (docOf (docMembers title x y z)) (.object [(keyOf dir, axisValue t)])
      = .ok (docOf (docMembers title
          (if dir = .X then some t else x)
          (if dir = .Y then some t else y)
          (if dir = .Z then some t else z))) := by
  cases dir <;> cases title <;> cases x <;> cases y <;> cases z <;>
    simp +decide [Json.update, docOf, docMembers, keyOf, Json.insertMember]

/-- The key stored by the constructor is the documented key. -/
theorem Axis.new_key (dir : AxisDirection) (t : String) : (Axis.new dir t).key = keyOf dir := by
  cases dir <;> rfl

/-- The title stored by the constructor is the given one. -/
theorem Axis.new_title (dir : AxisDirection) (t : String) : (Axis.new dir t).title = t := rfl

/-- The add operation appends the constructed axis and keeps the title. -/
theorem Layout.addAxis_eq (p : Layout) (dir : AxisDirection) (t : String) :
    p.addAxis dir t = { axes := p.axes ++ [Axis.new dir t], title := p.title } := by
  cases dir <;> rfl

/-- Building with one more call is adding one more axis. -/
theorem Layout.build_append (title : String) (calls : List (AxisDirection × String))
    (c : AxisDirection × String) :
    Layout.build title (calls ++ [c]) = (Layout.build title calls).addAxis c.1 c.2 := by
  simp [Layout.build, List.foldl_append]

/-- Axes of a built layout: one constructed axis per call, in call order. -/
theorem Layout.build_axes (title : String) (calls : List (AxisDirection × String)) :
    (Layout.build title calls).axes = calls.map (fun c => Axis.new c.1 c.2) := by
  induction calls using List.reverseRecOn with
  | nil => rfl
  | append_singleton cs c ih => simp [Layout.build_append, Layout.addAxis_eq, ih]

/-- Title of a built layout: the one given to the constructor. -/
theorem Layout.build_title (title : String) (calls : List (AxisDirection × String)) :
    (Layout.build title calls).title = title := by
  induction calls using List.reverseRecOn with
  | nil => rfl
  | append_singleton cs c ih => simp [Layout.build_append, Layout.addAxis_eq, ih]

/-- Every layout whose axes were all made by the constructor is a built
layout. -/
theorem Layout.eq_build (p : Layout) (calls : List (AxisDirection × String))
    (h : p.axes = calls.map (fun c => Axis.new c.1 c.2)) :
    p = Layout.build p.title calls := by
  cases p with
  | mk axes title =>
    have ha := Layout.build_axes title calls
    have ht := Layout.build_title title calls
    cases hb : Layout.build title calls with
    | mk axes' title' =>
      rw [hb] at ha ht
      simp only at h ha ht
      simp [h, ha, ht]

/-- The loop over a sequence extended by one axis runs the loop over the
sequence and then one more round. -/
theorem Layout.to_json.loop_append (j : Json) (xs : List Axis) (a : Axis) :
    Layout.to_json.loop j (xs ++ [a])
      = (Layout.to_json.loop j xs >>= fun j' => Layout.to_json.loop j' [a]) := by
  induction xs generalizing j with
  | nil => simp [Layout.to_json.loop, bind, Except.bind]
  | cons x xs ih =>
    simp only [List.cons_append, Layout.to_json.loop, Axis.to_json_null, bind, Except.bind]
    cases Json.update j (.object [(x.key, axisValue x.title)]) with
    | error e => rfl
    | ok j' => simp [ih j', Layout.to_json.loop, Axis.to_json_null, bind, Except.bind]

/-- The last title of a direction after one more call. -/
theorem lastTitle_append (dir : AxisDirection) (calls : List (AxisDirection × String))
    (c : AxisDirection × String) :
    lastTitle dir (calls ++ [c]) = if c.1 = dir then some c.2 else lastTitle dir calls := by
  by_cases h : c.1 = dir <;> simp [lastTitle, List.filter_append, List.filter_cons, h]

/-- The loop started on a document in layout form ends on the layout form
whose axis entries are the last titles of the calls. -/
theorem Layout.to_json.loop_calls (title : Option String)
    (calls : List (AxisDirection × String)) :
    Layout.to_json.loop (docOf (docMembers title none none none))
        (calls.map (fun c => Axis.new c.1 c.2))
      = .ok (docOf (docMembers title (lastTitle .X calls) (lastTitle .Y calls)
          (lastTitle .Z calls))) := by
  induction calls using List.reverseRecOn with
  | nil => rfl
  | append_singleton cs c ih =>
    obtain ⟨d, t⟩ := c
    rw [List.map_append, List.map_singleton, Layout.to_json.loop_append, ih]
    simp only [bind, Except.bind, Layout.to_json.loop, Axis.to_json_null, Axis.new_key,
      Axis.new_title, update_axis_step, lastTitle_append]

/-- Closed form of the layout serialiser on a fresh document. -/
theorem Layout.to_json_build (title : String) (calls : List (AxisDirection × String)) :
    Layout.to_json Json.null (Layout.build title calls)
      = .ok (docOf (docMembers (titleEntry title) (lastTitle .X calls) (lastTitle .Y calls)
          (lastTitle .Z calls))) := by
  unfold Layout.to_json
  rw [Layout.build_axes, Layout.build_title, ← Layout.to_json.loop_calls]
  by_cases h : title.isEmpty = true <;>
    simp [h, titleEntry, Json.set, Json.insertMember, docOf, docMembers, bind, Except.bind, pure,
      Except.pure]

/-- The title entry of a document in layout form. -/
theorem find_title_docOf (title x y z : Option String) :
    (docOf (docMembers title x y z)).find "title" = title.map Json.string := by
  cases title <;> cases x <;> cases y <;> cases z <;>
    simp +decide [docOf, docMembers, Json.find, Json.findMember]

/-- The axis entries of a document in layout form. -/
theorem find_axis_docOf (title x y z : Option String) :
    (docOf (docMembers title x y z)).find "xaxis" = x.map axisValue
    ∧ (docOf (docMembers title x y z)).find "yaxis" = y.map axisValue
    ∧ (docOf (docMembers title x y z)).find "zaxis" = z.map axisValue := by
  cases title <;> cases x <;> cases y <;> cases z <;>
    simp +decide [docOf, docMembers, Json.find, Json.findMember]

/-- A direction has a last title exactly when some call has it. -/
theorem lastTitle_isSome_iff (dir : AxisDirection) (calls : List (AxisDirection × String)) :
    (lastTitle dir calls).isSome = true ↔ ∃ t, (dir, t) ∈ calls := by
  induction calls using List.reverseRecOn with
  | nil => simp [lastTitle]
  | append_singleton cs c ih =>
    obtain ⟨d, s⟩ := c
    rw [lastTitle_append]
    by_cases h : d = dir
    · subst h
      simp only [if_true, Option.isSome_some, true_iff]
      exact ⟨s, by simp⟩
    · have h' : ¬ dir = d := fun e => h e.symm
      simp [h, h', ih]

/-- The last title of a direction is that of a call after which no call
has the direction. -/
theorem lastTitle_of_split (dir : AxisDirection) (t : String)
    (pre post : List (AxisDirection × String)) (hpost : ∀ c ∈ post, c.1 ≠ dir) :
    lastTitle dir (pre ++ (dir, t) :: post) = some t := by
  have hnil : post.filter (fun c => decide (c.1 = dir)) = [] := by
    rw [List.filter_eq_nil_iff]
    intro c hc
    simpa using hpost c hc
  simp [lastTitle, List.filter_append, List.filter_cons, hnil]

/-- Merging an object into a `null` or object target succeeds and leaves
an object. -/
theorem update_object_ok (j : Json) (hj : j = .null ∨ ∃ m, j = .object m)
    (entries : List (String × Json)) :
    ∃ m, Json.update j (.object entries) = .ok (.object m) := by
  rcases hj with rfl | ⟨m, rfl⟩ <;> exact ⟨_, rfl⟩

/-- The loop started on a `null` or object target never raises. -/
theorem Layout.to_json.loop_ok (axes : List Axis) (j : Json)
    (hj : j = .null ∨ ∃ m, j = .object m) :
    ∃ j', Layout.to_json.loop j axes = .ok j' := by
  induction axes generalizing j with
  | nil => exact ⟨j, rfl⟩
  | cons a rest ih =>
    obtain ⟨m, hm⟩ := update_object_ok j hj [(a.key, axisValue a.title)]
    obtain ⟨j', hj'⟩ := ih (.object m) (Or.inr ⟨m, rfl⟩)
    exact ⟨j', by simp [Layout.to_json.loop, Axis.to_json_null, hm, hj', bind, Except.bind]⟩

/-! ## Claims -/

/-- C1: for each direction and every title, empty or not, the axis built by
the constructor serialises into a fresh document as the object whose only
key is `"xaxis"`, `"yaxis"` or `"zaxis"` respectively and whose value there
is the one-field object holding the title under `"title"`. -/
theorem axis_to_json_fresh (t : String) :
    Axis.to_json Json.null (Axis.new .X t)
        = .ok (.object [("xaxis", .object [("title", .string t)])])
    ∧ Axis.to_json Json.null (Axis.new .Y t)
        = .ok (.object [("yaxis", .object [("title", .string t)])])
    ∧ Axis.to_json Json.null (Axis.new .Z t)
        = .ok (.object [("zaxis", .object [("title", .string t)])]) := by
  refine ⟨?_, ?_, ?_⟩ <;> rw [Axis.to_json_null] <;> rfl

/-- C2: last write wins. When the calls made on a layout are `pre`, then a
call of direction `dir` with title `t`, then calls `post` none of which has
direction `dir`, the serialised document holds exactly `{"title": t}` under
the key of `dir`, whatever earlier calls of that direction were in `pre`. -/
theorem layout_last_write_wins (title : String) (dir : AxisDirection) (t : String)
    (pre post : List (AxisDirection × String)) (hpost : ∀ c ∈ post, c.1 ≠ dir) :
    ∃ j, Layout.to_json Json.null (Layout.build title (pre ++ (dir, t) :: post)) = .ok j
      ∧ j.find (keyOf dir) = some (.object [("title", .string t)]) := by
  refine ⟨_, Layout.to_json_build _ _, ?_⟩
  obtain ⟨hx, hy, hz⟩ := find_axis_docOf (titleEntry title)
    (lastTitle .X (pre ++ (dir, t) :: post)) (lastTitle .Y (pre ++ (dir, t) :: post))
    (lastTitle .Z (pre ++ (dir, t) :: post))
  cases dir
  · rw [keyOf, hx, lastTitle_of_split _ _ _ _ hpost]; rfl
  · rw [keyOf, hy, lastTitle_of_split _ _ _ _ hpost]; rfl
  · rw [keyOf, hz, lastTitle_of_split _ _ _ _ hpost]; rfl

/-- Witness for C2: `xLabel("first")` then `xLabel("second")` on an
untitled layout leaves `{"title": "second"}` under `"xaxis"`. -/
theorem layout_last_write_wins_witness :
    ∃ j, Layout.to_json Json.null (((Layout.new "").xLabel "first").xLabel "second") = .ok j
      ∧ j.find "xaxis" = some (.object [("title", .string "second")]) :=
  layout_last_write_wins "" .X "second" [(.X, "first")] [] (by simp)

/-- C3: the serialised document of a layout has a top-level `"title"` field
exactly when the layout title is not empty, and the field then holds the
layout title as a string. -/
theorem layout_title_field (title : String) (calls : List (AxisDirection × String)) :
    ∃ j, Layout.to_json Json.null (Layout.build title calls) = .ok j
      ∧ (j.contains "title" = true ↔ title ≠ "")
      ∧ j.find "title" = if title = "" then none else some (.string title) := by
  refine ⟨_, Layout.to_json_build _ _, ?_, ?_⟩
  · rw [Json.contains, find_title_docOf, titleEntry]
    by_cases h : title = "" <;> simp [h, String.isEmpty_iff]
  · rw [find_title_docOf, titleEntry]
    by_cases h : title = "" <;> simp [h, String.isEmpty_iff]

/-- C4: the serialised document of a layout has the key `"xaxis"`,
`"yaxis"`, `"zaxis"` exactly when at least one call of direction X, Y, Z
respectively was made, whatever the titles of those calls. -/
theorem layout_axis_key_present (title : String) (calls : List (AxisDirection × String)) :
    ∃ j, Layout.to_json Json.null (Layout.build title calls) = .ok j
      ∧ (j.contains "xaxis" = true ↔ ∃ t, (AxisDirection.X, t) ∈ calls)
      ∧ (j.contains "yaxis" = true ↔ ∃ t, (AxisDirection.Y, t) ∈ calls)
      ∧ (j.contains "zaxis" = true ↔ ∃ t, (AxisDirection.Z, t) ∈ calls) := by
  refine ⟨_, Layout.to_json_build _ _, ?_⟩
  obtain ⟨hx, hy, hz⟩ := find_axis_docOf (titleEntry title)
    (lastTitle .X calls) (lastTitle .Y calls) (lastTitle .Z calls)
  simp only [Json.contains, hx, hy, hz, Option.isSome_map']
  exact ⟨lastTitle_isSome_iff _ _, lastTitle_isSome_iff _ _, lastTitle_isSome_iff _ _⟩

/-- C5, as stated, fails: an untitled layout without axes serialised into
a fresh document does not give the empty object `{}`. -/
theorem layout_empty_not_empty_object :
    Layout.to_json Json.null (Layout.new "") ≠ .ok (.object []) := by
  intro h
  have h' : (Except.ok Json.null : Except JsonException Json) = .ok (.object []) := h
  cases h'

/-- C5, amended: an untitled layout without axes leaves the target document
as it is, so serialised into a fresh document it gives the `null` document,
which has no key and is not an object; only an object target stays an
object. -/
theorem layout_empty_leaves_target (j : Json) :
    Layout.to_json j (Layout.new "") = .ok j
    ∧ Layout.to_json Json.null (Layout.new "") = .ok Json.null
    ∧ Json.keys Json.null = []
    ∧ Layout.to_json (.object []) (Layout.new "") = .ok (.object []) :=
  ⟨rfl, rfl, rfl, rfl⟩

/-- C6: a layout constructed with a non-empty title and without axes
serialises to the one-field object holding the title under `"title"`. -/
theorem layout_title_only (t : String) (ht : t ≠ "") :
    Layout.to_json Json.null (Layout.new t) = .ok (.object [("title", .string t)]) := by
  have h := Layout.to_json_build t []
  have he : ¬ t.isEmpty = true := fun e => ht ((String.isEmpty_iff t).mp e)
  simpa [Layout.build, titleEntry, he, lastTitle, docMembers, docOf] using h

/-- Witness for C6: the title `"a graph title"`. -/
theorem layout_title_only_witness :
    "a graph title" ≠ ""
    ∧ Layout.to_json Json.null (Layout.new "a graph title")
        = .ok (.object [("title", .string "a graph title")]) :=
  ⟨by decide, layout_title_only "a graph title" (by decide)⟩

/-- C7: `xLabel(a)` then `yLabel(b)` on an untitled layout serialises to
the two-key object with `{"title": a}` under `"xaxis"` and `{"title": b}`
under `"yaxis"` and no `"title"` key; on a layout with the non-empty title
`T` the document has the same two entries and `T` under `"title"`. -/
theorem layout_x_then_y (a b T : String) (hT : T ≠ "") :
    Layout.to_json Json.null (((Layout.new "").xLabel a).yLabel b)
        = .ok (.object [("xaxis", .object [("title", .string a)]),
                        ("yaxis", .object [("title", .string b)])])
    ∧ Layout.to_json Json.null (((Layout.new T).xLabel a).yLabel b)
        = .ok (.object [("title", .string T),
                        ("xaxis", .object [("title", .string a)]),
                        ("yaxis", .object [("title", .string b)])]) := by
  have he : ¬ T.isEmpty = true := fun e => hT ((String.isEmpty_iff T).mp e)
  constructor
  · have h := Layout.to_json_build "" [(.X, a), (.Y, b)]
    simpa [Layout.build, Layout.addAxis, titleEntry, lastTitle, docMembers, docOf, axisValue]
      using h
  · have h := Layout.to_json_build T [(.X, a), (.Y, b)]
    simpa [Layout.build, Layout.addAxis, titleEntry, he, lastTitle, docMembers, docOf, axisValue]
      using h

/-- Witness for C7: titles `"ecks"` and `"why"`, layout title
`"a graph title"`. -/
theorem layout_x_then_y_witness :
    "a graph title" ≠ ""
    ∧ Layout.to_json Json.null (((Layout.new "").xLabel "ecks").yLabel "why")
        = .ok (.object [("xaxis", .object [("title", .string "ecks")]),
                        ("yaxis", .object [("title", .string "why")])])
    ∧ Layout.to_json Json.null (((Layout.new "a graph title").xLabel "ecks").yLabel "why")
        = .ok (.object [("title", .string "a graph title"),
                        ("xaxis", .object [("title", .string "ecks")]),
                        ("yaxis", .object [("title", .string "why")])]) :=
  ⟨by decide, layout_x_then_y "ecks" "why" "a graph title" (by decide)⟩

/-- C8: each label method returns the layout whose axes are the previous
axes, in their order, followed by the one new axis with the key of the
method's direction and the given label as title; the layout title is
unchanged. The methods are total, so the call always succeeds. -/
theorem layout_label_appends (p : Layout) (t : String) :
    ((p.xLabel t).axes = p.axes ++ [{ title := t, key := "xaxis" }]
      ∧ (p.xLabel t).title = p.title)
    ∧ ((p.yLabel t).axes = p.axes ++ [{ title := t, key := "yaxis" }]
      ∧ (p.yLabel t).title = p.title)
    ∧ ((p.zLabel t).axes = p.axes ++ [{ title := t, key := "zaxis" }]
      ∧ (p.zLabel t).title = p.title) :=
  ⟨⟨rfl, rfl⟩, ⟨rfl, rfl⟩, ⟨rfl, rfl⟩⟩

/-- C9: adding an axis of direction `d1` and then one of a different
direction `d2` to a layout serialises to the same document as adding them
in the other order. -/
theorem layout_order_independent (title : String) (calls : List (AxisDirection × String))
    (d1 d2 : AxisDirection) (a b : String) (hd : d1 ≠ d2) :
    ∃ j, Layout.to_json Json.null (((Layout.build title calls).addAxis d1 a).addAxis d2 b)
          = .ok j
      ∧ Layout.to_json Json.null (((Layout.build title calls).addAxis d2 b).addAxis d1 a)
          = .ok j := by
  have e1 : ((Layout.build title calls).addAxis d1 a).addAxis d2 b
      = Layout.build title ((calls ++ [(d1, a)]) ++ [(d2, b)]) := by
    rw [Layout.build_append, Layout.build_append]
  have e2 : ((Layout.build title calls).addAxis d2 b).addAxis d1 a
      = Layout.build title ((calls ++ [(d2, b)]) ++ [(d1, a)]) := by
    rw [Layout.build_append, Layout.build_append]
  refine ⟨_, by rw [e1]; exact Layout.to_json_build _ _, ?_⟩
  rw [e2, Layout.to_json_build]
  simp only [lastTitle_append]
  cases d1 <;> cases d2 <;> first | exact absurd rfl hd | simp

/-- Witness for C9: on the empty layout, a Y axis then an X axis against an
X axis then a Y axis. -/
theorem layout_order_independent_witness :
    AxisDirection.Y ≠ AxisDirection.X
    ∧ ∃ j, Layout.to_json Json.null (((Layout.new "").yLabel "why").xLabel "ecks") = .ok j
      ∧ Layout.to_json Json.null (((Layout.new "").xLabel "ecks").yLabel "why") = .ok j :=
  ⟨by decide, layout_order_independent "" [] .Y .X "why" "ecks" (by decide)⟩

/-- C10: serialising any layout, and any axis, into a fresh document
returns a document: no keyed assignment and no update along the way raises
a type error. -/
theorem to_json_total (p : Layout) (a : Axis) :
    (∃ j, Layout.to_json Json.null p = .ok j) ∧ (∃ j, Axis.to_json Json.null a = .ok j) := by
  refine ⟨?_, _, Axis.to_json_null a⟩
  unfold Layout.to_json
  by_cases h : p.title.isEmpty = true
  · simpa [h, bind, Except.bind, pure, Except.pure] using
      Layout.to_json.loop_ok p.axes Json.null (Or.inl rfl)
  · simpa [h, Json.set, bind, Except.bind] using
      Layout.to_json.loop_ok p.axes (.object (Json.insertMember "title" (.string p.title) []))
        (Or.inr ⟨_, rfl⟩)

/-! ## Further facts about the document operations -/

/-- After an insertion the key holds the inserted value. -/
theorem findMember_insertMember_self (k : String) (v : Json) (ms : List (String × Json)) :
    Json.findMember k (Json.insertMember k v ms) = some v := by
  induction ms with
  | nil => simp [Json.insertMember, Json.findMember]
  | cons m rest ih =>
    obtain ⟨k', v'⟩ := m
    by_cases h1 : k = k'
    · simp [Json.insertMember, Json.findMember, h1]
    · by_cases h2 : k < k'
      · simp [Json.insertMember, Json.findMember, h1, h2]
      · simp only [Json.insertMember, Json.findMember, h1, h2, if_false]
        exact ih

/-- An insertion leaves the value of every other key as it was. -/
theorem findMember_insertMember_of_ne (k k0 : String) (v : Json) (ms : List (String × Json))
    (h : k0 ≠ k) :
    Json.findMember k0 (Json.insertMember k v ms) = Json.findMember k0 ms := by
  induction ms with
  | nil => simp [Json.insertMember, Json.findMember, h]
  | cons m rest ih =>
    obtain ⟨k', v'⟩ := m
    by_cases h1 : k = k'
    · subst h1
      simp [Json.insertMember, Json.findMember, h]
    · by_cases h2 : k < k'
      · simp [Json.insertMember, Json.findMember, h1, h2, h]
      · simp only [Json.insertMember, Json.findMember, h1, h2, if_false]
        rw [ih]

/-- Serialising any layout into a fresh document returns a document. -/
theorem Layout.to_json_null_ok (p : Layout) : ∃ j, Layout.to_json Json.null p = .ok j := by
  unfold Layout.to_json
  by_cases h : p.title.isEmpty = true
  · simpa [h, bind, Except.bind, pure, Except.pure] using
      Layout.to_json.loop_ok p.axes Json.null (Or.inl rfl)
  · simpa [h, Json.set, bind, Except.bind] using
      Layout.to_json.loop_ok p.axes (.object (Json.insertMember "title" (.string p.title) []))
        (Or.inr ⟨_, rfl⟩)

/-- Running the loop over a sequence extended by one axis, after any first
step, is running it over the sequence and then merging the sub-document of
the axis. -/
theorem Layout.to_json.loop_snoc_bind (r : Except JsonException Json) (axes : List Axis)
    (a : Axis) :
    (r >>= fun y => Layout.to_json.loop y (axes ++ [a]))
      = mergeAxis (r >>= fun y => Layout.to_json.loop y axes) a := by
  unfold mergeAxis subdoc
  cases r with
  | error e => rfl
  | ok j1 =>
    simp only [Layout.to_json.loop_append, bind, Except.bind]
    cases Layout.to_json.loop j1 axes with
    | error e => rfl
    | ok j2 =>
      simp only [Layout.to_json.loop, Axis.to_json_null, bind, Except.bind]
      cases Json.update j2 (.object [(a.key, axisValue a.title)]) <;> rfl

/-- Serialising a layout with one more axis at the end is one more merge
after serialising the layout. -/
theorem Layout.to_json_snoc (j : Json) (axes : List Axis) (title : String) (a : Axis) :
    Layout.to_json j { axes := axes ++ [a], title := title }
      = mergeAxis (Layout.to_json j { axes := axes, title := title }) a := by
  unfold Layout.to_json
  by_cases h : title.isEmpty = true
  · simp only [h, not_true_eq_false, if_false]
    exact Layout.to_json.loop_snoc_bind (pure j) axes a
  · simp only [h, not_false_eq_true, if_true]
    exact Layout.to_json.loop_snoc_bind (Json.set j "title" (Json.string title)) axes a

/-- Serialising a layout without axes into a fresh document gives the
title-only document. -/
theorem Layout.to_json_no_axes (title : String) :
    Layout.to_json Json.null { axes := [], title := title } = titleOnly title := by
  by_cases h : title = ""
  · subst h; rfl
  · have he : ¬ title.isEmpty = true := fun e => h ((String.isEmpty_iff title).mp e)
    simp [Layout.to_json, Layout.to_json.loop, titleOnly, h, he, Json.set, Json.insertMember,
      bind, Except.bind]

/-- The serialiser is the left fold of merges over the axes. -/
theorem Layout.to_json_eq_fold (axes : List Axis) (title : String) :
    Layout.to_json Json.null { axes := axes, title := title }
      = axes.foldl mergeAxis (titleOnly title) := by
  induction axes using List.reverseRecOn with
  | nil => exact Layout.to_json_no_axes title
  | append_singleton xs a ih =>
    rw [Layout.to_json_snoc, ih, List.foldl_append, List.foldl_cons, List.foldl_nil]

/-- The loop started on any document in layout form: each axis entry ends
as the last title of its direction among the calls, or stays as it was when
no call has the direction. -/
theorem Layout.to_json.loop_calls_from (title x y z : Option String)
    (calls : List (AxisDirection × String)) :
    Layout.to_json.loop (docOf (docMembers title x y z))
        (calls.map (fun c => Axis.new c.1 c.2))
      = .ok (docOf (docMembers title ((lastTitle .X calls).or x) ((lastTitle .Y calls).or y)
          ((lastTitle .Z calls).or z))) := by
  induction calls using List.reverseRecOn with
  | nil => simp [lastTitle, Layout.to_json.loop]
  | append_singleton cs c ih =>
    obtain ⟨d, t⟩ := c
    rw [List.map_append, List.map_singleton, Layout.to_json.loop_append, ih]
    simp only [bind, Except.bind, Layout.to_json.loop, Axis.to_json_null, Axis.new_key,
      Axis.new_title, update_axis_step, lastTitle_append]
    cases d <;> simp

/-- Setting the title again on a document that already holds it changes
nothing. -/
theorem set_title_again (t : String) (x y z : Option String) :
    Json.set (docOf (docMembers (some t) x y z)) "title" (.string t)
      = .ok (docOf (docMembers (some t) x y z)) := by
  cases x <;> cases y <;> cases z <;> simp [docOf, docMembers, Json.set, Json.insertMember]

/-- The keys of a document in layout form are among the four layout keys,
in that order. -/
theorem keys_docOf_sublist (title x y z : Option String) :
    (docOf (docMembers title x y z)).keys.Sublist ["title", "xaxis", "yaxis", "zaxis"] := by
  cases title <;> cases x <;> cases y <;> cases z <;>
    simp +decide [docOf, docMembers, Json.keys]

/-- The last element of a list does not change when an element that is not
the last one is dropped. -/
theorem getLast?_drop_inner {α : Type} (A B C : List α) (u v : α) :
    (A ++ u :: (B ++ v :: C)).getLast? = (A ++ (B ++ v :: C)).getLast? := by
  have e1 : A ++ u :: (B ++ v :: C) = (A ++ u :: B) ++ (v :: C) := by simp
  have e2 : A ++ (B ++ v :: C) = (A ++ B) ++ (v :: C) := by simp
  rw [e1, e2, List.getLast?_append_of_ne_nil _ (List.cons_ne_nil v C),
    List.getLast?_append_of_ne_nil _ (List.cons_ne_nil v C)]

/-- Dropping a call that is followed by a later call of the same direction
does not change the last title of any direction. -/
theorem lastTitle_drop_shadowed (dir d : AxisDirection) (s s' : String)
    (pre mid post : List (AxisDirection × String)) :
    lastTitle dir (pre ++ (d, s) :: (mid ++ (d, s') :: post))
      = lastTitle dir (pre ++ (mid ++ (d, s') :: post)) := by
  by_cases h : d = dir
  · subst h
    simp only [lastTitle, List.filter_append, List.filter_cons, decide_True, if_true]
    rw [getLast?_drop_inner]
  · simp [lastTitle, List.filter_append, List.filter_cons, h]

/-! ## Claims, continued -/

/-- C11: the key fixed by the constructor is one of the three literals
`"xaxis"`, `"yaxis"`, `"zaxis"` for every direction, and two constructed
axes have the same key exactly when they have the same direction, whatever
their titles. -/
theorem axis_key_injective (d1 d2 : AxisDirection) (t1 t2 : String) :
    (Axis.new d1 t1).key ∈ ["xaxis", "yaxis", "zaxis"]
    ∧ ((Axis.new d1 t1).key = (Axis.new d2 t2).key ↔ d1 = d2) := by
  cases d1 <;> cases d2 <;> simp +decide [Axis.new]

/-- C12: two layouts with the same title and the same axes sequence, such
as one layout read twice with no mutation in between, serialise into fresh
documents to one and the same document. -/
theorem layout_to_json_deterministic (p q : Layout) (ht : q.title = p.title)
    (ha : q.axes = p.axes) :
    ∃ j, Layout.to_json Json.null p = .ok j ∧ Layout.to_json Json.null q = .ok j := by
  obtain ⟨j, hj⟩ := Layout.to_json_null_ok p
  refine ⟨j, hj, ?_⟩
  have e : q = p := by
    cases p; cases q; simp_all
  rw [e, hj]

/-- Witness for C12: the titled layout with an X axis, serialised twice. -/
theorem layout_to_json_deterministic_witness :
    ∃ j, Layout.to_json Json.null ((Layout.new "a graph title").xLabel "ecks") = .ok j
      ∧ Layout.to_json Json.null ((Layout.new "a graph title").xLabel "ecks") = .ok j :=
  layout_to_json_deterministic ((Layout.new "a graph title").xLabel "ecks")
    ((Layout.new "a graph title").xLabel "ecks") rfl rfl

/-- C17: serialising an axis into an object document succeeds; every key
other than the axis key has the same value afterwards as before, present
or absent, and the axis key holds exactly `{"title": title}` afterwards,
whether or not it was there before. -/
theorem axis_to_json_frame (members : List (String × Json)) (a : Axis) (k : String)
    (hk : k ≠ a.key) :
    ∃ j, Axis.to_json (.object members) a = .ok j
      ∧ j.find k = (Json.object members).find k
      ∧ j.find a.key = some (.object [("title", .string a.title)]) := by
  refine ⟨.object (Json.insertMember a.key (.object [("title", .string a.title)]) members),
    ?_, ?_, ?_⟩
  · simp [Axis.to_json, Json.set, Json.insertMember, bind, Except.bind]
  · exact findMember_insertMember_of_ne _ _ _ _ hk
  · exact findMember_insertMember_self _ _ _

/-- Witness for C17: an X axis written into a document that already has a
`"title"` and an older `"xaxis"` entry; the `"title"` entry is looked at. -/
theorem axis_to_json_frame_witness :
    ∃ j, Axis.to_json
          (.object [("title", .string "T"), ("xaxis", .object [("title", .string "old")])])
          (Axis.new .X "new") = .ok j
      ∧ j.find "title"
          = (Json.object [("title", .string "T"),
              ("xaxis", .object [("title", .string "old")])]).find "title"
      ∧ j.find "xaxis" = some (.object [("title", .string "new")]) :=
  axis_to_json_frame [("title", .string "T"), ("xaxis", .object [("title", .string "old")])]
    (Axis.new .X "new") "title" (by decide)

/-- C13: the layout serialiser is a left fold of key-wise merges.
Serialising a layout with one more axis at the end equals serialising the
layout and then updating the result with the sub-document of the axis;
a layout without axes serialises to the title-only document; so the
serialiser agrees with the fold worded by the specification. -/
theorem layout_to_json_is_fold (p : Layout) (a : Axis) (t : String) :
    Layout.to_json Json.null { axes := p.axes ++ [a], title := p.title }
        = (do
            let j ← Layout.to_json Json.null p
            let ax ← Axis.to_json Json.null a
            Json.update j ax)
    ∧ Layout.to_json Json.null (Layout.new t)
        = (if t = "" then .ok Json.null else .ok (.object [("title", .string t)]))
    ∧ Layout.to_json Json.null p = Layout.foldSerialise p := by
  refine ⟨Layout.to_json_snoc Json.null p.axes p.title a, ?_, Layout.to_json_eq_fold p.axes p.title⟩
  have h := Layout.to_json_no_axes t
  by_cases ht : t = ""
  · simpa [Layout.new, titleOnly, ht] using h
  · simpa [Layout.new, titleOnly, ht, Json.set, Json.insertMember] using h

/-- C14: the top-level keys of a serialised layout are among `"title"`,
`"xaxis"`, `"yaxis"`, `"zaxis"`, each at most once, so there are at most
four; the `"title"` entry is the one of the same layout without axes, and
no constructed axis has the key `"title"`. -/
theorem layout_keys_bounded (title : String) (calls : List (AxisDirection × String))
    (d : AxisDirection) (t : String) :
    ∃ j j0, Layout.to_json Json.null (Layout.build title calls) = .ok j
      ∧ Layout.to_json Json.null (Layout.new title) = .ok j0
      ∧ j.keys.Sublist ["title", "xaxis", "yaxis", "zaxis"]
      ∧ j.keys.length ≤ 4
      ∧ j.find "title" = j0.find "title"
      ∧ (Axis.new d t).key ≠ "title" := by
  refine ⟨_, _, Layout.to_json_build title calls, Layout.to_json_build title [],
    keys_docOf_sublist _ _ _ _, ?_, ?_, ?_⟩
  · exact (keys_docOf_sublist _ _ _ _).length_le
  · rw [find_title_docOf, find_title_docOf]
  · cases d <;> simp +decide [Axis.new]

/-- C15: two layouts with the same title whose calls have, for each of X,
Y and Z, the same last title (or none in both) serialise to the same
document; in particular dropping a call that is followed by a later call of
the same direction does not change the document. -/
theorem layout_depends_on_last_titles (title : String)
    (calls1 calls2 pre mid post : List (AxisDirection × String))
    (d : AxisDirection) (s s' : String)
    (hx : lastTitle .X calls1 = lastTitle .X calls2)
    (hy : lastTitle .Y calls1 = lastTitle .Y calls2)
    (hz : lastTitle .Z calls1 = lastTitle .Z calls2) :
    (∃ j, Layout.to_json Json.null (Layout.build title calls1) = .ok j
        ∧ Layout.to_json Json.null (Layout.build title calls2) = .ok j)
    ∧ (∃ j, Layout.to_json Json.null
              (Layout.build title (pre ++ (d, s) :: (mid ++ (d, s') :: post))) = .ok j
        ∧ Layout.to_json Json.null
              (Layout.build title (pre ++ (mid ++ (d, s') :: post))) = .ok j) := by
  constructor
  · refine ⟨_, Layout.to_json_build title calls1, ?_⟩
    rw [Layout.to_json_build, hx, hy, hz]
  · refine ⟨_, Layout.to_json_build title _, ?_⟩
    rw [Layout.to_json_build, lastTitle_drop_shadowed, lastTitle_drop_shadowed,
      lastTitle_drop_shadowed]

/-- Witness for C15: `xLabel("a")`, `yLabel("c")`, `xLabel("b")` against
`yLabel("c")`, `xLabel("b")` on layouts titled `"T"`. -/
theorem layout_depends_on_last_titles_witness :
    (∃ j, Layout.to_json Json.null
            ((((Layout.new "T").xLabel "a").yLabel "c").xLabel "b") = .ok j
        ∧ Layout.to_json Json.null (((Layout.new "T").yLabel "c").xLabel "b") = .ok j)
    ∧ (∃ j, Layout.to_json Json.null
            ((((Layout.new "T").xLabel "a").yLabel "c").xLabel "b") = .ok j
        ∧ Layout.to_json Json.null (((Layout.new "T").yLabel "c").xLabel "b") = .ok j) :=
  layout_depends_on_last_titles "T" [(.X, "a"), (.Y, "c"), (.X, "b")] [(.Y, "c"), (.X, "b")]
    [] [(.Y, "c")] [] .X "a" "b" rfl rfl rfl

/-- C16: serialising a layout once more into the document that its own
serialisation produced returns that document unchanged. -/
theorem layout_to_json_reapply (title : String) (calls : List (AxisDirection × String)) :
    ∃ j, Layout.to_json Json.null (Layout.build title calls) = .ok j
      ∧ Layout.to_json j (Layout.build title calls) = .ok j := by
  refine ⟨_, Layout.to_json_build title calls, ?_⟩
  unfold Layout.to_json
  rw [Layout.build_axes, Layout.build_title]
  by_cases h : title.isEmpty = true
  · simp only [h, not_true_eq_false, if_false, pure, Except.pure, bind, Except.bind,
      Layout.to_json.loop_calls_from, Option.or_self]
  · simp only [h, not_false_eq_true, if_true, titleEntry, Bool.false_eq_true, if_false,
      set_title_again, bind, Except.bind, Layout.to_json.loop_calls_from, Option.or_self]

end cpplot
